import Mathlib

/-!
Verification of the two console snake variants in this repository:
`snakegame.c` (namespace `SG1`, bounded board, collision-on-wall) and
`snakegamee.c` (namespace `SG2`, wrap-around board).

Each definition is a shallow embedding of the corresponding C function;
C machine integers are modelled as `Int` (no value in the game approaches
overflow), the global mutable state of each file as a structure passed
explicitly, and the `rand()` stream as an explicit list of draws.
-/

set_option maxRecDepth 4096

/-- Both files declare the identical enum `typedef enum { UP, DOWN, LEFT, RIGHT }`. -/
inductive Direction : Type
  | UP
  | DOWN
  | LEFT
  | RIGHT
deriving DecidableEq, Repr

/-- The exact opposite of a direction (the spec's notion of "reversal"). -/
def Direction.opposite : Direction → Direction
  | .UP => .DOWN
  | .DOWN => .UP
  | .LEFT => .RIGHT
  | .RIGHT => .LEFT

namespace SG1

/-- `#define WIDTH 40` -/
def WIDTH : Int := 40

/-- `#define HEIGHT 20` -/
def HEIGHT : Int := 20

/-- `#define MAX_SNAKE (WIDTH * HEIGHT)` — capacity of the `snake` array. -/
def MAX_SNAKE : Nat := 800

/-- `typedef struct { int x, y; } Point;` -/
structure Point where
  x : Int
  y : Int
deriving DecidableEq, Repr

/-- The game's global mutable state in `snakegame.c`.  The `snake` array is
modelled by its live prefix `snake[0 .. snake_len-1]` as a list (head first);
the index-level view of the update step's array accesses is modelled
separately by `shift_writes` / `update_reads` below. -/
structure State where
  snake : List Point
  dir : Direction
  orb : Point
  score : Int
  game_over : Bool
  speed_ms : Int
deriving DecidableEq, Repr

/-- `int point_equals(Point a, Point b) { return a.x == b.x && a.y == b.y; }` -/
def point_equals (a b : Point) : Bool :=
  a.x == b.x && a.y == b.y

/-- `int is_snake_at(int x, int y)` — scans `snake[0 .. snake_len-1]`. -/
def is_snake_at (body : List Point) (x y : Int) : Bool :=
  body.any (fun p => p.x == x && p.y == y)

/-- The head displacement applied in `update_logic`:
`if (dir == UP) next.y -= 1; else if ...`. -/
def step (d : Direction) (p : Point) : Point :=
  match d with
  | .UP => ⟨p.x, p.y - 1⟩
  | .DOWN => ⟨p.x, p.y + 1⟩
  | .LEFT => ⟨p.x - 1, p.y⟩
  | .RIGHT => ⟨p.x + 1, p.y⟩

/-- `Point next = snake[0]; ...` — the candidate new head cell. -/
def next_head (s : State) : Point :=
  step s.dir (s.snake.headD ⟨0, 0⟩)

/-- The wall test of `update_logic`:
`next.x < 0 || next.x >= WIDTH || next.y < 0 || next.y >= HEIGHT`. -/
def wall_hit (p : Point) : Prop :=
  p.x < 0 ∨ WIDTH ≤ p.x ∨ p.y < 0 ∨ HEIGHT ≤ p.y

instance (p : Point) : Decidable (wall_hit p) := by
  unfold wall_hit; infer_instance

/-- `void update_logic()` of `snakegame.c`.

The body shift `for (i = snake_len; i > 0; --i) snake[i] = snake[i-1];
snake[0] = next;` leaves the array prefix `snake[0 .. snake_len]` equal to
`next :: old body` (the old tail is copied one cell past the live body), so
after the shift the live body is `(next :: old body).take len'` where `len'`
is the possibly incremented length.  `new_orb` stands for the value the
`place_orb()` call assigns on consumption (modelled separately by
`place_orb` below, which takes the random stream explicitly). -/
def update_logic (s : State) (new_orb : Point) : State :=
  if wall_hit (next_head s) then
    { s with game_over := true }
  else if s.snake.any (fun p => point_equals p (next_head s)) then
    { s with game_over := true }
  else if point_equals (next_head s) s.orb then
    { s with
      snake := (next_head s :: s.snake).take (min (next_head s :: s.snake).length MAX_SNAKE),
      score := s.score + 10,
      speed_ms := if 40 < s.speed_ms then s.speed_ms - 2 else s.speed_ms,
      orb := new_orb }
  else
    { s with snake := (next_head s :: s.snake).take s.snake.length }

/-- `void place_orb()` — rejection sampling: each loop iteration draws
`rx = rand() % WIDTH; ry = rand() % HEIGHT` and returns the first cell not
on the snake.  The `rand()` stream is modelled as an explicit list of
natural-number pairs; `none` means the given finite prefix of the stream
was exhausted without the loop exiting (the C loop would keep running). -/
def place_orb : List (Nat × Nat) → List Point → Option Point
  | [], _ => none
  | d :: rest, body =>
    if is_snake_at body ((d.1 % 40 : Nat) : Int) ((d.2 % 20 : Nat) : Int) then place_orb rest body
    else some ⟨((d.1 % 40 : Nat) : Int), ((d.2 % 20 : Nat) : Int)⟩

/-- `place_orb` never exits: for every finite prefix of the random stream the
rejection loop is still running.  Used with the fully occupied board. -/
def place_orb_diverges (body : List Point) : Prop :=
  ∀ draws : List (Nat × Nat), place_orb draws body = none

/-- Every cell of the 40×20 grid, i.e. a snake occupying the whole board
(`snake_len = MAX_SNAKE`, the spec's capacity case). -/
def allCells : List Point :=
  (List.range 800).map (fun i => ⟨(i % 40 : Nat), (i / 40 : Nat)⟩)

/-- One key event as consumed by `input_handling`: a decoded arrow escape
sequence (`ESC [ A/B/C/D`) or a plain character.  POSIX `input_handling`
handles one such event per call and is called repeatedly per tick; the
Windows branch drains all pending events in one call.  Either way the
events seen between two ticks act in sequence on `dir`. -/
inductive KeyEvent : Type
  | arrow (c : Char)
  | ch (c : Char)
deriving DecidableEq, Repr

/-- The effect of one key event in `input_handling` (`snakegame.c`): each
branch guards the new direction against the *current* value of `dir`,
which may already have been changed by an earlier event in the same tick. -/
def input_one (s : State) (k : KeyEvent) : State :=
  match k with
  | .arrow c =>
    if c = 'A' ∧ s.dir ≠ .DOWN then { s with dir := .UP }
    else if c = 'B' ∧ s.dir ≠ .UP then { s with dir := .DOWN }
    else if c = 'C' ∧ s.dir ≠ .LEFT then { s with dir := .RIGHT }
    else if c = 'D' ∧ s.dir ≠ .RIGHT then { s with dir := .LEFT }
    else s
  | .ch c =>
    if c = 'w' ∨ c = 'W' then (if s.dir ≠ .DOWN then { s with dir := .UP } else s)
    else if c = 's' ∨ c = 'S' then (if s.dir ≠ .UP then { s with dir := .DOWN } else s)
    else if c = 'a' ∨ c = 'A' then (if s.dir ≠ .RIGHT then { s with dir := .LEFT } else s)
    else if c = 'd' ∨ c = 'D' then (if s.dir ≠ .LEFT then { s with dir := .RIGHT } else s)
    else if c = 'q' ∨ c = 'Q' then { s with game_over := true }
    else s

/-- `input_handling` applied to the sequence of key events arriving between
two consecutive `update_logic` calls. -/
def input_handling (s : State) (ks : List KeyEvent) : State :=
  ks.foldl input_one s

end SG1

namespace SG2

/-- `typedef struct { int x; int y; } Position;` -/
structure Position where
  x : Int
  y : Int
deriving DecidableEq, Repr

/-- The game's global mutable state in `snakegamee.c`.  Here the whole
backing array `Position snake[MAX_LENGTH]` is kept (as the list `arr`)
together with `snake_length`, because `move_snake`'s growth step reads the
array cell one past the live body, whose content matters. -/
structure State where
  arr : List Position
  snake_length : Nat
  food : Position
  current_dir : Direction
  next_dir : Direction
  dir_changed : Bool
  score : Int
  game_running : Bool
  paused : Bool
  speed : Int
deriving DecidableEq, Repr

/-- The global array `Position snake[MAX_LENGTH]` at program start: C
zero-initialises it, then `init_game` seeds indices 0..2 with the starting
body at the board centre. -/
def init_arr : List Position :=
  [⟨15, 7⟩, ⟨14, 7⟩, ⟨13, 7⟩] ++ List.replicate 497 ⟨0, 0⟩

/-- The head displacement of `move_snake`'s `switch (current_dir)`. -/
def stepPos (d : Direction) (p : Position) : Position :=
  match d with
  | .UP => ⟨p.x, p.y - 1⟩
  | .DOWN => ⟨p.x, p.y + 1⟩
  | .LEFT => ⟨p.x - 1, p.y⟩
  | .RIGHT => ⟨p.x + 1, p.y⟩

/-- The two sequential clamp `if`s `move_snake` applies to each coordinate
of `snake[0]`: `if (v < 0) v = lim - 1; if (v >= lim) v = 0;`. -/
def wrapCoord (v lim : Int) : Int :=
  if lim ≤ (if v < 0 then lim - 1 else v) then 0 else (if v < 0 then lim - 1 else v)

/-- Wrapping of the new head: x against `WIDTH` (30), y against `HEIGHT` (15). -/
def wrapPos (p : Position) : Position :=
  ⟨wrapCoord p.x 30, wrapCoord p.y 15⟩

/-- The body-shift loop of `move_snake`:
`for (i = snake_length - 1; i > 0; i--) snake[i] = snake[i-1];`
`shiftDown arr i` performs the iterations for indices `i, i-1, ..., 1`
(each copies the cell below into the current index, highest index first,
exactly as the loop does). -/
def shiftDown (arr : List Position) : Nat → List Position
  | 0 => arr
  | i + 1 => shiftDown (arr.set (i + 1) (arr.getD i ⟨0, 0⟩)) i

/-- The new head used by `move_snake`: `current_dir` has just been set to
`next_dir`, the step is applied to the old `snake[0]`, and the wrap `if`s
run right after `snake[0] = new_head`, so the net value stored at index 0
is the wrapped stepped head. -/
def new_head (s : State) : Position :=
  wrapPos (stepPos s.next_dir (s.arr.getD 0 ⟨0, 0⟩))

/-- The snake array as `move_snake` leaves it after the shift loop, the
assignment `snake[0] = new_head` and the wrap `if`s. -/
def post_shift (s : State) : List Position :=
  (shiftDown s.arr (s.snake_length - 1)).set 0 (new_head s)

/-- `int check_collision()` — compares `snake[0]` with
`snake[1] .. snake[snake_length-1]`. -/
def check_collision (arr : List Position) (len : Nat) : Bool :=
  (List.range (len - 1)).any (fun i =>
    (arr.getD (i + 1) ⟨0, 0⟩).x == (arr.getD 0 ⟨0, 0⟩).x &&
    (arr.getD (i + 1) ⟨0, 0⟩).y == (arr.getD 0 ⟨0, 0⟩).y)

/-- The live body `snake[0 .. snake_length-1]` of a state. -/
def live (s : State) : List Position :=
  s.arr.take s.snake_length

/-- The food check of `move_snake`, performed on the already moved and
wrapped head: `snake[0].x == food.x && snake[0].y == food.y`. -/
def eats_food (s : State) : Bool :=
  ((post_shift s).getD 0 ⟨0, 0⟩).x == s.food.x &&
  ((post_shift s).getD 0 ⟨0, 0⟩).y == s.food.y

/-- `void move_snake()` of `snakegamee.c`.  Order of operations in the
source: early return when paused; commit `current_dir = next_dir` and clear
`dir_changed`; shift the body down; store and wrap the new head; then the
self-collision check; then the food check (growth capped at `MAX_LENGTH`,
`spawn_food` called on consumption regardless of the cap — its result is
the `new_food` parameter, the stream-explicit model being `spawn_food`
below). -/
def move_snake (s : State) (new_food : Position) : State :=
  if s.paused then s
  else if check_collision (post_shift s) s.snake_length then
    { s with
      current_dir := s.next_dir, dir_changed := false, arr := post_shift s,
      game_running := false }
  else if eats_food s then
    if s.snake_length < 500 then
      { s with
        current_dir := s.next_dir, dir_changed := false, arr := post_shift s,
        snake_length := s.snake_length + 1,
        score := s.score + 10,
        speed := if 50 < s.speed then s.speed - 2 else s.speed,
        food := new_food }
    else
      { s with
        current_dir := s.next_dir, dir_changed := false, arr := post_shift s,
        food := new_food }
  else
    { s with current_dir := s.next_dir, dir_changed := false, arr := post_shift s }

/-- `void spawn_food()` — rejection sampling over
`food.x = rand() % WIDTH; food.y = rand() % HEIGHT;`, accepting the first
draw not on `snake[0 .. snake_length-1]`.  As for `SG1.place_orb`, the
`rand()` stream is an explicit list and `none` means the finite prefix ran
out with the loop still going. -/
def spawn_food : List (Nat × Nat) → List Position → Nat → Option Position
  | [], _, _ => none
  | d :: rest, arr, len =>
    if (List.range len).any (fun i =>
        (arr.getD i ⟨0, 0⟩).x == ((d.1 % 30 : Nat) : Int) &&
        (arr.getD i ⟨0, 0⟩).y == ((d.2 % 15 : Nat) : Int))
    then spawn_food rest arr len
    else some ⟨((d.1 % 30 : Nat) : Int), ((d.2 % 15 : Nat) : Int)⟩

end SG2

/-- `printf`/`snprintf` rendering of a C `int` with `%d`. -/
def int_to_dec (n : Int) : List Char :=
  if n < 0 then '-' :: (Nat.repr n.natAbs).toList else (Nat.repr n.natAbs).toList

namespace SG1

/-- One cell of the frame produced by `draw_to_buffer`, at frame
coordinates `x ∈ [0, fb_w)`, `y ∈ [0, fb_h)` (`fb_w = 42`, `fb_h = 22`):
top/bottom border, then left/right border, then — at game coordinates
`(x-1, y-1)` — orb, head `snake[0]`, the body scan over
`snake[1 .. snake_len-1]`, and finally the empty cell. -/
def cellChar (s : State) (x y : Nat) : Char :=
  if y = 0 ∨ y = 21 then '#'
  else if x = 0 ∨ x = 41 then '#'
  else if s.orb.x == (x : Int) - 1 && s.orb.y == (y : Int) - 1 then '*'
  else if (s.snake.headD ⟨0, 0⟩).x == (x : Int) - 1 &&
          (s.snake.headD ⟨0, 0⟩).y == (y : Int) - 1 then 'O'
  else if s.snake.tail.any (fun p => p.x == (x : Int) - 1 && p.y == (y : Int) - 1) then 'o'
  else ' '

/-- `void draw_to_buffer()` — fills `framebuf` row-major: for each
`y < fb_h` the `fb_w` cell characters followed by `'\n'`, so the character
of cell `(x, y)` lands at buffer offset `y * (fb_w + 1) + x`. -/
def draw_to_buffer (s : State) : List Char :=
  ((List.range 22).map (fun y =>
    (List.range 42).map (fun x => cellChar s x y) ++ ['\n'])).flatten

/-- The HUD string `flush_buffer` emits after the grid:
`"Score: %d    Length: %d    Speed(ms/frame): %d\nControls: ..."`,
with `score`, `snake_len` and `speed_ms` substituted. -/
def hud (score len speed : Int) : List Char :=
  "Score: ".toList ++ int_to_dec score ++
  "    Length: ".toList ++ int_to_dec len ++
  "    Speed(ms/frame): ".toList ++ int_to_dec speed ++
  "\nControls: Arrow keys or WASD. Press \x27q\x27 to quit.\n".toList

end SG1

/-- Modelled from the spec: the status line format of §6,
`Score: <int>    Length: <int>    Speed(ms/frame): <int>`
(four spaces between fields). -/
def spec_status_line (score len speed : Int) : List Char :=
  "Score: ".toList ++ int_to_dec score ++
  "    Length: ".toList ++ int_to_dec len ++
  "    Speed(ms/frame): ".toList ++ int_to_dec speed

namespace SG2

/-- One interior cell of `draw_game`'s grid at game coordinates
`(x, y)`, following the source's flag logic: head `snake[0]` first, then
the body scan over `snake[1 .. snake_length-1]`, then — only when no snake
part was drawn — the food, else blank. -/
def draw_cell (arr : List Position) (len : Nat) (food : Position) (x y : Int) : Char :=
  if (arr.getD 0 ⟨0, 0⟩).x == x && (arr.getD 0 ⟨0, 0⟩).y == y then 'O'
  else if (List.range (len - 1)).any (fun i =>
      (arr.getD (i + 1) ⟨0, 0⟩).x == x && (arr.getD (i + 1) ⟨0, 0⟩).y == y) then 'o'
  else if food.x == x && food.y == y then '*'
  else ' '

/-- The status line `draw_game` appends after the grid:
`sprintf(status, "Score: %d | Length: %d | ESC=Quit SPACE=Pause", score, snake_length)`,
plus `" [PAUSED]"` when paused. -/
def status_line (score : Int) (len : Nat) (paused : Bool) : List Char :=
  "Score: ".toList ++ int_to_dec score ++
  " | Length: ".toList ++ int_to_dec len ++
  " | ESC=Quit SPACE=Pause".toList ++
  (if paused then " [PAUSED]".toList else [])

/-- `void draw_game()` — the screen buffer: a top border row of
`WIDTH + 2 = 32` hashes and a newline, then for each `y < HEIGHT` a row
`'#'`, the 30 interior cells, `'#'`, newline, then the bottom border row,
then the status line.  Every grid row is 33 characters long, so the
interior cell `(x, y)` lands at buffer offset `(y + 1) * 33 + 1 + x`. -/
def draw_game (s : State) : List Char :=
  (List.replicate 32 '#' ++ ['\n']) ++
  ((List.range 15).map (fun y =>
    '#' :: (List.range 30).map (fun x =>
      draw_cell s.arr s.snake_length s.food (x : Int) (y : Int)) ++ ['#', '\n'])).flatten ++
  (List.replicate 32 '#' ++ ['\n']) ++
  status_line s.score s.snake_length s.paused

end SG2

namespace SG1

/-- The indices written by the body-shift loop of `update_logic`,
`for (i = snake_len; i > 0; --i) snake[i] = snake[i-1];`,
in loop order (first iteration first): `[len, len-1, ..., 1]`. -/
def shift_writes : Nat → List Nat
  | 0 => []
  | i + 1 => (i + 1) :: shift_writes i

/-- The indices read by the same loop (`snake[i-1]`), in loop order:
`[len-1, ..., 0]`. -/
def shift_reads : Nat → List Nat
  | 0 => []
  | i + 1 => i :: shift_reads i

/-- Every index `update_logic` reads from the `snake` array when entered
with `snake_len = len`: the self-collision scan `snake[0 .. len-1]`, the
shift loop's reads, and `snake[0]` (head computation and the orb check). -/
def update_reads (len : Nat) : List Nat :=
  List.range len ++ shift_reads len ++ [0]

/-- Every index `update_logic` writes to the `snake` array when entered
with `snake_len = len`: the shift loop's writes and `snake[0] = next`. -/
def update_writes (len : Nat) : List Nat :=
  shift_writes len ++ [0]

/-- The spec's §8 consumption scenario for `snakegame.c`: snake
`[(5,5),(4,5),(3,5),(2,5)]` heading Right with the orb at `(6,5)`. -/
def eat_demo : State :=
  { snake := [⟨5, 5⟩, ⟨4, 5⟩, ⟨3, 5⟩, ⟨2, 5⟩], dir := .RIGHT, orb := ⟨6, 5⟩,
    score := 0, game_over := false, speed_ms := 120 }

/-- The same snake with the orb elsewhere: a plain movement tick. -/
def move_demo : State :=
  { snake := [⟨5, 5⟩, ⟨4, 5⟩, ⟨3, 5⟩, ⟨2, 5⟩], dir := .RIGHT, orb := ⟨30, 10⟩,
    score := 0, game_over := false, speed_ms := 120 }

/-- The spec's §8 wall scenario: head at `(0,5)` heading Left. -/
def wall_demo : State :=
  { snake := [⟨0, 5⟩, ⟨1, 5⟩, ⟨2, 5⟩, ⟨3, 5⟩], dir := .LEFT, orb := ⟨30, 10⟩,
    score := 0, game_over := false, speed_ms := 120 }

/-- The initial state of `init_game` (orb position arbitrary): snake seeded
at the board centre heading Right. -/
def input_demo : State :=
  { snake := [⟨20, 10⟩, ⟨19, 10⟩, ⟨18, 10⟩, ⟨17, 10⟩], dir := .RIGHT, orb := ⟨30, 10⟩,
    score := 0, game_over := false, speed_ms := 120 }

end SG1

namespace SG2

/-- A `snakegamee.c` state about to consume: snake `[(5,5),(4,5),(3,5)]`
heading Right, food at `(6,5)`; the rest of the backing array holds the
zero-initialised cells, as after `init_game` (length has never exceeded 3). -/
def eat_demo : State :=
  { arr := [⟨5, 5⟩, ⟨4, 5⟩, ⟨3, 5⟩] ++ List.replicate 497 ⟨0, 0⟩, snake_length := 3,
    food := ⟨6, 5⟩, current_dir := .RIGHT, next_dir := .RIGHT, dir_changed := false,
    score := 0, game_running := true, paused := false, speed := 100 }

/-- A state about to run into its own body: head `(5,5)` turning Left onto
`(4,5)`, which stays occupied after the shift. -/
def self_demo : State :=
  { arr := [⟨5, 5⟩, ⟨4, 5⟩, ⟨3, 5⟩, ⟨2, 5⟩] ++ List.replicate 496 ⟨0, 0⟩, snake_length := 4,
    food := ⟨20, 12⟩, current_dir := .RIGHT, next_dir := .LEFT, dir_changed := true,
    score := 0, game_running := true, paused := false, speed := 100 }

/-- The spec's wrap scenario: head at `(0,5)` heading Left on the
wrap-around board, food elsewhere. -/
def wrap_demo : State :=
  { arr := [⟨0, 5⟩, ⟨1, 5⟩, ⟨2, 5⟩] ++ List.replicate 497 ⟨0, 0⟩, snake_length := 3,
    food := ⟨10, 10⟩, current_dir := .RIGHT, next_dir := .LEFT, dir_changed := true,
    score := 0, game_running := true, paused := false, speed := 100 }

/-- A state whose food cell coincides with the head cell `(15,7)` (the
renderer must pick one character for the shared cell). -/
def overlap_demo : State :=
  { arr := [⟨15, 7⟩, ⟨14, 7⟩, ⟨13, 7⟩] ++ List.replicate 497 ⟨0, 0⟩, snake_length := 3,
    food := ⟨15, 7⟩, current_dir := .RIGHT, next_dir := .RIGHT, dir_changed := false,
    score := 0, game_running := true, paused := false, speed := 100 }

end SG2

/-! ## Helper lemmas -/

namespace SG1

theorem point_equals_true_iff (a b : Point) : point_equals a b = true ↔ a = b := by
  cases a
  cases b
  simp [point_equals]

theorem point_equals_false_iff (a b : Point) : point_equals a b = false ↔ a ≠ b := by
  rw [← Bool.not_eq_true, not_iff_not]
  exact point_equals_true_iff a b

theorem any_point_equals_iff (l : List Point) (p : Point) :
    l.any (fun q => point_equals q p) = true ↔ p ∈ l := by
  rw [List.any_eq_true]
  constructor
  · rintro ⟨q, hq, hpq⟩
    rw [point_equals_true_iff] at hpq
    exact hpq ▸ hq
  · intro hp
    exact ⟨p, hp, (point_equals_true_iff p p).2 rfl⟩

theorem update_logic_collide (s : State) (o : Point)
    (h : wall_hit (next_head s) ∨ next_head s ∈ s.snake) :
    update_logic s o = { s with game_over := true } := by
  unfold update_logic
  rcases h with h | h
  · rw [if_pos h]
  · by_cases hw : wall_hit (next_head s)
    · rw [if_pos hw]
    · rw [if_neg hw, if_pos ((any_point_equals_iff s.snake (next_head s)).2 h)]

theorem update_logic_no_eat (s : State) (o : Point)
    (h1 : ¬ wall_hit (next_head s)) (h2 : next_head s ∉ s.snake)
    (h3 : next_head s ≠ s.orb) :
    update_logic s o = { s with snake := (next_head s :: s.snake).take s.snake.length } := by
  unfold update_logic
  rw [if_neg h1, if_neg, if_neg]
  · rw [point_equals_true_iff]
    exact h3
  · rw [any_point_equals_iff]
    exact h2

theorem update_logic_eat (s : State) (o : Point)
    (h1 : ¬ wall_hit (next_head s)) (h2 : next_head s ∉ s.snake)
    (h3 : next_head s = s.orb) (h4 : s.snake.length < MAX_SNAKE) :
    update_logic s o =
      { s with
        snake := next_head s :: s.snake,
        score := s.score + 10,
        speed_ms := if 40 < s.speed_ms then s.speed_ms - 2 else s.speed_ms,
        orb := o } := by
  unfold update_logic
  rw [if_neg h1, if_neg, if_pos]
  · have hmin : min (next_head s :: s.snake).length MAX_SNAKE =
        (next_head s :: s.snake).length := by
      simp only [List.length_cons]
      omega
    rw [hmin, List.take_length]
  · rw [point_equals_true_iff]
    exact h3
  · rw [any_point_equals_iff]
    exact h2

theorem shift_writes_mem (n j : Nat) (h : j ∈ shift_writes n) : 1 ≤ j ∧ j ≤ n := by
  induction n with
  | zero => simp [shift_writes] at h
  | succ i ih =>
    simp only [shift_writes, List.mem_cons] at h
    rcases h with h | h
    · omega
    · have := ih h
      omega

theorem shift_reads_mem (n j : Nat) (h : j ∈ shift_reads n) : j < n := by
  induction n with
  | zero => simp [shift_reads] at h
  | succ i ih =>
    simp only [shift_reads, List.mem_cons] at h
    rcases h with h | h
    · omega
    · have := ih h
      omega

end SG1

namespace SG2

theorem shiftDown_length (arr : List Position) (i : Nat) :
    (shiftDown arr i).length = arr.length := by
  induction i generalizing arr with
  | zero => rfl
  | succ j ih => rw [shiftDown, ih, List.length_set]

theorem getD_shiftDown (arr : List Position) (i j : Nat) (z : Position)
    (hi : i < arr.length) :
    (shiftDown arr i).getD j z =
      if 1 ≤ j ∧ j ≤ i then arr.getD (j - 1) z else arr.getD j z := by
  induction i generalizing arr with
  | zero =>
    have : ¬ (1 ≤ j ∧ j ≤ 0) := by omega
    rw [shiftDown, if_neg this]
  | succ i ih =>
    rw [shiftDown]
    have hlen : i < (arr.set (i + 1) (arr.getD i ⟨0, 0⟩)).length := by
      rw [List.length_set]
      omega
    rw [ih _ hlen]
    by_cases h1 : 1 ≤ j ∧ j ≤ i
    · rw [if_pos h1, if_pos (show 1 ≤ j ∧ j ≤ i + 1 by omega),
        List.getD_eq_getElem?_getD, List.getElem?_set,
        if_neg (show ¬ i + 1 = j - 1 by omega), ← List.getD_eq_getElem?_getD]
    · rw [if_neg h1]
      by_cases h2 : j = i + 1
      · subst h2
        rw [if_pos (show 1 ≤ i + 1 ∧ i + 1 ≤ i + 1 by omega), Nat.add_sub_cancel,
          List.getD_eq_getElem?_getD, List.getElem?_set, if_pos rfl,
          if_pos (show i + 1 < arr.length by omega), Option.getD_some]
        simp [List.getD_eq_getElem?_getD,
          List.getElem?_eq_getElem (show i < arr.length by omega)]
      · rw [if_neg (show ¬ (1 ≤ j ∧ j ≤ i + 1) by omega),
          List.getD_eq_getElem?_getD, List.getElem?_set,
          if_neg (show ¬ i + 1 = j by omega), ← List.getD_eq_getElem?_getD]

theorem post_shift_length (s : State) :
    (post_shift s).length = s.arr.length := by
  rw [post_shift, List.length_set, shiftDown_length]

theorem getD_post_shift_zero (s : State) (z : Position)
    (h1 : 1 ≤ s.snake_length) (h2 : s.snake_length ≤ s.arr.length) :
    (post_shift s).getD 0 z = new_head s := by
  have hl : 0 < (shiftDown s.arr (s.snake_length - 1)).length := by
    rw [shiftDown_length]
    omega
  rw [post_shift, List.getD_eq_getElem?_getD, List.getElem?_set, if_pos rfl,
    if_pos hl, Option.getD_some]

theorem getD_post_shift_body (s : State) (j : Nat) (z : Position)
    (hj1 : 1 ≤ j) (hj2 : j ≤ s.snake_length - 1)
    (h1 : 1 ≤ s.snake_length) (h2 : s.snake_length ≤ s.arr.length) :
    (post_shift s).getD j z = s.arr.getD (j - 1) z := by
  rw [post_shift, List.getD_eq_getElem?_getD, List.getElem?_set,
    if_neg (show ¬ (0 : Nat) = j by omega), ← List.getD_eq_getElem?_getD,
    getD_shiftDown _ _ _ _ (show s.snake_length - 1 < s.arr.length by omega),
    if_pos (show 1 ≤ j ∧ j ≤ s.snake_length - 1 by omega)]

theorem move_snake_collide (s : State) (f : Position)
    (hp : s.paused = false)
    (hc : check_collision (post_shift s) s.snake_length = true) :
    move_snake s f =
      { s with
        current_dir := s.next_dir, dir_changed := false, arr := post_shift s,
        game_running := false } := by
  unfold move_snake
  rw [if_neg (by simp [hp]), if_pos hc]

theorem move_snake_plain (s : State) (f : Position)
    (hp : s.paused = false)
    (hc : check_collision (post_shift s) s.snake_length = false)
    (he : eats_food s = false) :
    move_snake s f =
      { s with current_dir := s.next_dir, dir_changed := false, arr := post_shift s } := by
  unfold move_snake
  rw [if_neg (by simp [hp]), if_neg (by simp [hc]), if_neg (by simp [he])]

theorem move_snake_eat (s : State) (f : Position)
    (hp : s.paused = false)
    (hc : check_collision (post_shift s) s.snake_length = false)
    (he : eats_food s = true) (hlen : s.snake_length < 500) :
    move_snake s f =
      { s with
        current_dir := s.next_dir, dir_changed := false, arr := post_shift s,
        snake_length := s.snake_length + 1,
        score := s.score + 10,
        speed := if 50 < s.speed then s.speed - 2 else s.speed,
        food := f } := by
  unfold move_snake
  rw [if_neg (by simp [hp]), if_neg (by simp [hc]), if_pos he, if_pos hlen]

end SG2

theorem getD_take_of_lt {α : Type} (l : List α) (n m : Nat) (z : α) (h : m < n) :
    (l.take n).getD m z = l.getD m z := by
  rw [List.getD_eq_getElem?_getD, List.getElem?_take, if_pos h, ← List.getD_eq_getElem?_getD]

theorem getD_flatten_of_width (rows : List (List Char)) (w : Nat)
    (hw : ∀ r ∈ rows, r.length = w) (i j : Nat) (hi : i < rows.length) (hj : j < w)
    (z : Char) :
    rows.flatten.getD (i * w + j) z = (rows.getD i []).getD j z := by
  induction rows generalizing i with
  | nil => simp at hi
  | cons r rest ih =>
    have hr : r.length = w := hw r (List.mem_cons_self r rest)
    cases i with
    | zero =>
      simp only [Nat.zero_mul, Nat.zero_add, List.flatten_cons, List.getD_cons_zero]
      rw [List.getD_append _ _ _ j (by omega)]
    | succ i =>
      rw [List.flatten_cons, List.getD_append_right _ _ _ _ (by rw [hr]; ring_nf; omega),
        List.getD_cons_succ]
      have harith : (i + 1) * w + j - r.length = i * w + j := by
        rw [hr]
        ring_nf
        omega
      rw [harith]
      exact ih (fun r hr2 => hw r (List.mem_cons_of_mem _ hr2)) i (by simpa using hi)

namespace SG1

theorem beq_pair_iff (a : Point) (u v : Int) :
    (a.x == u && a.y == v) = true ↔ a = ⟨u, v⟩ := by
  cases a
  simp

theorem any_beq_pair_iff (l : List Point) (u v : Int) :
    l.any (fun p => p.x == u && p.y == v) = true ↔ (⟨u, v⟩ : Point) ∈ l := by
  rw [List.any_eq_true]
  constructor
  · rintro ⟨p, hp, hpe⟩
    rw [beq_pair_iff] at hpe
    exact hpe ▸ hp
  · intro h
    exact ⟨_, h, (beq_pair_iff _ _ _).2 rfl⟩

theorem is_snake_at_iff (body : List Point) (u v : Int) :
    is_snake_at body u v = true ↔ (⟨u, v⟩ : Point) ∈ body :=
  any_beq_pair_iff body u v

end SG1

namespace SG2

theorem beq_pair_iff_pos (a : Position) (u v : Int) :
    (a.x == u && a.y == v) = true ↔ a = ⟨u, v⟩ := by
  cases a
  simp

theorem wrapCoord_30 (v : Int) (h1 : -1 ≤ v) (h2 : v ≤ 30) :
    wrapCoord v 30 = v % 30 := by
  unfold wrapCoord
  split_ifs <;> omega

theorem wrapCoord_15 (v : Int) (h1 : -1 ≤ v) (h2 : v ≤ 15) :
    wrapCoord v 15 = v % 15 := by
  unfold wrapCoord
  split_ifs <;> omega

theorem move_snake_eat_capped (s : State) (f : Position)
    (hp : s.paused = false)
    (hc : check_collision (post_shift s) s.snake_length = false)
    (he : eats_food s = true) (hlen : ¬ s.snake_length < 500) :
    move_snake s f =
      { s with
        current_dir := s.next_dir, dir_changed := false, arr := post_shift s,
        food := f } := by
  unfold move_snake
  rw [if_neg (by simp [hp]), if_neg (by simp [hc]), if_pos he, if_neg hlen]

end SG2

/-! ## Claims -/

/-- C1 (counterexample): in `snakegamee.c`, a tick from `wrap_demo` (head
`(0,5)` heading Left) neither collides nor consumes and keeps the length,
yet the new head is `(29,5)` and not the old head plus the unit vector,
which would be `(-1,5)` — the board wraps, refuting the claim as stated. -/
theorem claim_C1_counterexample :
    (SG2.move_snake SG2.wrap_demo ⟨9, 9⟩).game_running = true ∧
    (SG2.move_snake SG2.wrap_demo ⟨9, 9⟩).score = SG2.wrap_demo.score ∧
    (SG2.move_snake SG2.wrap_demo ⟨9, 9⟩).snake_length = SG2.wrap_demo.snake_length ∧
    (SG2.live (SG2.move_snake SG2.wrap_demo ⟨9, 9⟩)).getD 0 ⟨0, 0⟩ = ⟨29, 5⟩ ∧
    SG2.stepPos SG2.wrap_demo.next_dir (SG2.wrap_demo.arr.getD 0 ⟨0, 0⟩) = ⟨-1, 5⟩ ∧
    (⟨29, 5⟩ : SG2.Position) ≠ ⟨-1, 5⟩ := by
  decide

/-- C1 (amended): for every tick that neither collides nor consumes, the
body length is unchanged and every surviving segment `i ≥ 1` holds the
coordinate segment `i-1` held before the tick; the new head is the old head
plus the unit vector of the applied direction in `snakegame.c`, and that
sum wrapped into the board (each out-of-range coordinate replaced as by the
wrap clamps) in `snakegamee.c`. -/
theorem claim_C1 :
    (∀ (s : SG1.State) (o : SG1.Point),
      s.snake ≠ [] →
      ¬ SG1.wall_hit (SG1.next_head s) →
      SG1.next_head s ∉ s.snake →
      SG1.next_head s ≠ s.orb →
      ((SG1.update_logic s o).snake.length = s.snake.length ∧
       (SG1.update_logic s o).snake.headD ⟨0, 0⟩ =
         SG1.step s.dir (s.snake.headD ⟨0, 0⟩) ∧
       ∀ i, 1 ≤ i → i < s.snake.length →
         (SG1.update_logic s o).snake.getD i ⟨0, 0⟩ = s.snake.getD (i - 1) ⟨0, 0⟩)) ∧
    (∀ (s : SG2.State) (f : SG2.Position),
      s.paused = false →
      1 ≤ s.snake_length →
      s.snake_length ≤ s.arr.length →
      SG2.check_collision (SG2.post_shift s) s.snake_length = false →
      SG2.eats_food s = false →
      ((SG2.move_snake s f).snake_length = s.snake_length ∧
       (SG2.live (SG2.move_snake s f)).getD 0 ⟨0, 0⟩ =
         SG2.wrapPos (SG2.stepPos s.next_dir (s.arr.getD 0 ⟨0, 0⟩)) ∧
       ∀ j, 1 ≤ j → j < s.snake_length →
         (SG2.live (SG2.move_snake s f)).getD j ⟨0, 0⟩ =
           (SG2.live s).getD (j - 1) ⟨0, 0⟩)) := by
  constructor
  · intro s o hne h1 h2 h3
    rw [SG1.update_logic_no_eat s o h1 h2 h3]
    have hlen : 0 < s.snake.length := List.length_pos.mpr hne
    obtain ⟨k, hk⟩ : ∃ k, s.snake.length = k + 1 := ⟨s.snake.length - 1, by omega⟩
    refine ⟨?_, ?_, ?_⟩
    · show ((SG1.next_head s :: s.snake).take s.snake.length).length = s.snake.length
      rw [List.length_take, List.length_cons]
      omega
    · show ((SG1.next_head s :: s.snake).take s.snake.length).headD ⟨0, 0⟩ =
        SG1.step s.dir (s.snake.headD ⟨0, 0⟩)
      rw [hk, List.take_succ_cons, List.headD_cons]
      rfl
    · intro i hi1 hi2
      show ((SG1.next_head s :: s.snake).take s.snake.length).getD i ⟨0, 0⟩ =
        s.snake.getD (i - 1) ⟨0, 0⟩
      rw [getD_take_of_lt _ _ _ _ hi2]
      obtain ⟨m, rfl⟩ : ∃ m, i = m + 1 := ⟨i - 1, by omega⟩
      rw [List.getD_cons_succ, Nat.add_sub_cancel]
  · intro s f hp h1 h2 hc he
    rw [SG2.move_snake_plain s f hp hc he]
    refine ⟨rfl, ?_, ?_⟩
    · show ((SG2.post_shift s).take s.snake_length).getD 0 ⟨0, 0⟩ =
        SG2.wrapPos (SG2.stepPos s.next_dir (s.arr.getD 0 ⟨0, 0⟩))
      rw [getD_take_of_lt _ _ _ _ (by omega), SG2.getD_post_shift_zero s _ h1 h2]
      rfl
    · intro j hj1 hj2
      show ((SG2.post_shift s).take s.snake_length).getD j ⟨0, 0⟩ =
        (s.arr.take s.snake_length).getD (j - 1) ⟨0, 0⟩
      rw [getD_take_of_lt _ _ _ _ hj2,
        SG2.getD_post_shift_body s j _ hj1 (by omega) h1 h2,
        getD_take_of_lt _ _ _ _ (by omega)]

/-- C1 (witness): the amended claim applied to the plain movement tick of
`move_demo` in `snakegame.c` and to the wrap tick of `wrap_demo` in
`snakegamee.c`. -/
theorem claim_C1_witness :
    (SG1.update_logic SG1.move_demo ⟨7, 5⟩).snake.length = SG1.move_demo.snake.length ∧
    (SG2.move_snake SG2.wrap_demo ⟨9, 9⟩).snake_length = SG2.wrap_demo.snake_length :=
  ⟨(claim_C1.1 SG1.move_demo ⟨7, 5⟩ (by decide) (by decide) (by decide) (by decide)).1,
   (claim_C1.2 SG2.wrap_demo ⟨9, 9⟩ (by decide) (by decide) (by decide) (by decide)
     (by decide)).1⟩

/-- C2: in `snakegame.c` a consumption tick yields exactly the new head
prepended to the entire prior body with score `+10` (first conjunct), but
in `snakegamee.c` the shift drops the old tail before the food check, so
growing exposes the stale zero-initialised cell `(0,0)` as the new tail:
from `eat_demo` the live body after consuming is
`[(6,5),(5,5),(4,5),(0,0)]`, not the head prepended to the prior body. -/
theorem claim_C2 :
    (∀ (s : SG1.State) (o : SG1.Point),
      ¬ SG1.wall_hit (SG1.next_head s) →
      SG1.next_head s ∉ s.snake →
      SG1.next_head s = s.orb →
      s.snake.length < SG1.MAX_SNAKE →
      ((SG1.update_logic s o).snake = SG1.next_head s :: s.snake ∧
       (SG1.update_logic s o).snake.length = s.snake.length + 1 ∧
       (SG1.update_logic s o).score = s.score + 10)) ∧
    ((SG2.post_shift SG2.eat_demo).getD 0 ⟨0, 0⟩ = SG2.eat_demo.food ∧
     (SG2.move_snake SG2.eat_demo ⟨9, 9⟩).snake_length = SG2.eat_demo.snake_length + 1 ∧
     (SG2.move_snake SG2.eat_demo ⟨9, 9⟩).score = SG2.eat_demo.score + 10 ∧
     SG2.live (SG2.move_snake SG2.eat_demo ⟨9, 9⟩) = [⟨6, 5⟩, ⟨5, 5⟩, ⟨4, 5⟩, ⟨0, 0⟩] ∧
     SG2.live (SG2.move_snake SG2.eat_demo ⟨9, 9⟩) ≠
       (SG2.post_shift SG2.eat_demo).getD 0 ⟨0, 0⟩ :: SG2.live SG2.eat_demo) := by
  constructor
  · intro s o h1 h2 h3 h4
    rw [SG1.update_logic_eat s o h1 h2 h3 h4]
    exact ⟨rfl, by simp, rfl⟩
  · decide

/-- C2 (witness): the `snakegame.c` conjunct applied to the spec's §8
consumption scenario `eat_demo`. -/
theorem claim_C2_witness :
    (SG1.update_logic SG1.eat_demo ⟨7, 5⟩).snake =
      SG1.next_head SG1.eat_demo :: SG1.eat_demo.snake ∧
    (SG1.update_logic SG1.eat_demo ⟨7, 5⟩).score = SG1.eat_demo.score + 10 :=
  ⟨(claim_C2.1 SG1.eat_demo ⟨7, 5⟩ (by decide) (by decide) (by decide) (by decide)).1,
   (claim_C2.1 SG1.eat_demo ⟨7, 5⟩ (by decide) (by decide) (by decide) (by decide)).2.2⟩

/-- C3 (counterexample): in `snakegamee.c`, from `self_demo` the next head
cell `(4,5)` lies on the current body, the tick does set the terminal flag,
but the body is NOT as it was before the tick — the shift and head store
have already happened when the collision is detected. -/
theorem claim_C3_counterexample :
    SG2.stepPos SG2.self_demo.next_dir (SG2.self_demo.arr.getD 0 ⟨0, 0⟩) ∈
      SG2.live SG2.self_demo ∧
    (SG2.move_snake SG2.self_demo ⟨9, 9⟩).game_running = false ∧
    SG2.live (SG2.move_snake SG2.self_demo ⟨9, 9⟩) ≠ SG2.live SG2.self_demo := by
  decide

/-- C3 (amended): in `snakegame.c`, a tick whose next head cell is out of
bounds or on any current body cell sets the terminal flag and returns the
body (all coordinates and the length) unchanged.  In `snakegamee.c` there
is no out-of-bounds case (the board wraps); self-collision is detected
after the move, and on collision the terminal flag is set while the array
retains the completed move (length unchanged). -/
theorem claim_C3 :
    (∀ (s : SG1.State) (o : SG1.Point),
      SG1.wall_hit (SG1.next_head s) ∨ SG1.next_head s ∈ s.snake →
      (SG1.update_logic s o).game_over = true ∧
      (SG1.update_logic s o).snake = s.snake) ∧
    (∀ (s : SG2.State) (f : SG2.Position),
      s.paused = false →
      SG2.check_collision (SG2.post_shift s) s.snake_length = true →
      (SG2.move_snake s f).game_running = false ∧
      (SG2.move_snake s f).arr = SG2.post_shift s ∧
      (SG2.move_snake s f).snake_length = s.snake_length) := by
  constructor
  · intro s o h
    rw [SG1.update_logic_collide s o h]
    exact ⟨rfl, rfl⟩
  · intro s f hp hc
    rw [SG2.move_snake_collide s f hp hc]
    exact ⟨rfl, rfl, rfl⟩

/-- C3 (witness): the amended claim applied to the spec's §8 wall scenario
`wall_demo` (head `(0,5)` heading Left) in `snakegame.c`, and to the
self-collision state `self_demo` in `snakegamee.c`. -/
theorem claim_C3_witness :
    (SG1.update_logic SG1.wall_demo ⟨7, 5⟩).game_over = true ∧
    (SG1.update_logic SG1.wall_demo ⟨7, 5⟩).snake = SG1.wall_demo.snake ∧
    (SG2.move_snake SG2.self_demo ⟨9, 9⟩).game_running = false :=
  ⟨(claim_C3.1 SG1.wall_demo ⟨7, 5⟩ (by decide)).1,
   (claim_C3.1 SG1.wall_demo ⟨7, 5⟩ (by decide)).2,
   (claim_C3.2 SG2.self_demo ⟨9, 9⟩ (by decide) (by decide)).1⟩

/-- C4: in `snakegame.c` a single reversal request is rejected (a lone `a`
while heading Right leaves the direction Right), but the rejection tests
the already-mutated `dir`: the two keys `w` then `a` arriving between two
ticks turn a Right-moving snake to Left, the exact opposite of the
direction applied at the current tick — refuting the claim that the
applied direction at the next tick is never the reverse of this tick's. -/
theorem claim_C4 :
    SG1.input_demo.dir = Direction.RIGHT ∧
    (SG1.input_handling SG1.input_demo [.ch 'a']).dir = Direction.RIGHT ∧
    (SG1.input_handling SG1.input_demo [.ch 'w', .ch 'a']).dir = Direction.LEFT ∧
    Direction.LEFT = Direction.RIGHT.opposite := by
  decide

/-- C5: whenever the rejection loop of `place_orb` / `spawn_food` returns,
the returned cell is not occupied by any snake segment at that moment, and
a placement performed right after a consumption tick — `place_orb` on the
post-tick body of `snakegame.c`, `spawn_food` on the post-tick array and
length of `snakegamee.c` (in both the moved head sits on the consumed
item's cell) — yields a cell different from the consumed item. -/
theorem claim_C5 :
    (∀ (draws : List (Nat × Nat)) (body : List SG1.Point) (p : SG1.Point),
      SG1.place_orb draws body = some p → SG1.is_snake_at body p.x p.y = false) ∧
    (∀ (draws : List (Nat × Nat)) (arr : List SG2.Position) (len : Nat) (q : SG2.Position),
      SG2.spawn_food draws arr len = some q →
      (List.range len).any (fun i =>
        (arr.getD i ⟨0, 0⟩).x == q.x && (arr.getD i ⟨0, 0⟩).y == q.y) = false) ∧
    (∀ (s : SG1.State) (o : SG1.Point) (draws : List (Nat × Nat)) (p : SG1.Point),
      ¬ SG1.wall_hit (SG1.next_head s) →
      SG1.next_head s ∉ s.snake →
      SG1.next_head s = s.orb →
      s.snake.length < SG1.MAX_SNAKE →
      SG1.place_orb draws (SG1.update_logic s o).snake = some p →
      p ≠ s.orb) ∧
    (∀ (s : SG2.State) (f : SG2.Position) (draws : List (Nat × Nat)) (q : SG2.Position),
      s.paused = false →
      SG2.check_collision (SG2.post_shift s) s.snake_length = false →
      SG2.eats_food s = true →
      1 ≤ s.snake_length →
      SG2.spawn_food draws (SG2.move_snake s f).arr (SG2.move_snake s f).snake_length =
        some q →
      q ≠ s.food) := by
  have free1 : ∀ (draws : List (Nat × Nat)) (body : List SG1.Point) (p : SG1.Point),
      SG1.place_orb draws body = some p → SG1.is_snake_at body p.x p.y = false := by
    intro draws
    induction draws with
    | nil =>
      intro body p h
      exact absurd h (by simp [SG1.place_orb])
    | cons d rest ih =>
      intro body p h
      simp only [SG1.place_orb] at h
      split at h
      · exact ih body p h
      next hcond =>
        have hp := Option.some.inj h
        rw [← hp]
        exact (Bool.not_eq_true _) ▸ hcond
  have free2 : ∀ (draws : List (Nat × Nat)) (arr : List SG2.Position) (len : Nat)
      (q : SG2.Position),
      SG2.spawn_food draws arr len = some q →
      (List.range len).any (fun i =>
        (arr.getD i ⟨0, 0⟩).x == q.x && (arr.getD i ⟨0, 0⟩).y == q.y) = false := by
    intro draws
    induction draws with
    | nil =>
      intro arr len q h
      exact absurd h (by simp [SG2.spawn_food])
    | cons d rest ih =>
      intro arr len q h
      simp only [SG2.spawn_food] at h
      split at h
      · exact ih arr len q h
      next hcond =>
        have hq := Option.some.inj h
        rw [← hq]
        exact (Bool.not_eq_true _) ▸ hcond
  refine ⟨free1, free2, ?_, ?_⟩
  · intro s o draws p h1 h2 h3 h4 hplace hEq
    have hfree := free1 draws _ p hplace
    subst hEq
    rw [SG1.update_logic_eat s o h1 h2 h3 h4, ← h3] at hfree
    simp [SG1.is_snake_at] at hfree
  · intro s f draws q hp hc he h1 hspawn hEq
    have hfree := free2 draws _ _ q hspawn
    subst hEq
    have hhead : (SG2.post_shift s).getD 0 ⟨0, 0⟩ = s.food := by
      unfold SG2.eats_food at he
      exact (SG2.beq_pair_iff_pos _ _ _).1 he
    have hmoved : (SG2.move_snake s f).arr = SG2.post_shift s ∧
        1 ≤ (SG2.move_snake s f).snake_length := by
      by_cases hlen : s.snake_length < 500
      · rw [SG2.move_snake_eat s f hp hc he hlen]
        exact ⟨rfl, by show 1 ≤ s.snake_length + 1; omega⟩
      · rw [SG2.move_snake_eat_capped s f hp hc he hlen]
        exact ⟨rfl, by show 1 ≤ s.snake_length; omega⟩
    have htrue : (List.range (SG2.move_snake s f).snake_length).any (fun i =>
        ((SG2.move_snake s f).arr.getD i ⟨0, 0⟩).x == s.food.x &&
        ((SG2.move_snake s f).arr.getD i ⟨0, 0⟩).y == s.food.y) = true := by
      rw [List.any_eq_true]
      refine ⟨0, List.mem_range.2 (by omega), ?_⟩
      show (((SG2.move_snake s f).arr.getD 0 ⟨0, 0⟩).x == s.food.x &&
        ((SG2.move_snake s f).arr.getD 0 ⟨0, 0⟩).y == s.food.y) = true
      rw [hmoved.1, hhead]
      simp
    rw [htrue] at hfree
    exact Bool.noConfusion hfree

/-- C5 (witness): the two consumption scenarios with a one-draw random
stream — `snakegame.c`'s `eat_demo` with draw `(7,5)` and `snakegamee.c`'s
`eat_demo` with draw `(9,9)`: each placement succeeds off the snake and
differs from the consumed item (`(6,5)` in both). -/
theorem claim_C5_witness :
    SG1.place_orb [(7, 5)] (SG1.update_logic SG1.eat_demo ⟨7, 5⟩).snake = some ⟨7, 5⟩ ∧
    (⟨7, 5⟩ : SG1.Point) ≠ SG1.eat_demo.orb ∧
    SG2.spawn_food [(9, 9)] (SG2.move_snake SG2.eat_demo ⟨9, 9⟩).arr
      (SG2.move_snake SG2.eat_demo ⟨9, 9⟩).snake_length = some ⟨9, 9⟩ ∧
    (⟨9, 9⟩ : SG2.Position) ≠ SG2.eat_demo.food :=
  ⟨by decide,
   claim_C5.2.2.1 SG1.eat_demo ⟨7, 5⟩ [(7, 5)] ⟨7, 5⟩ (by decide) (by decide) (by decide)
     (by decide) (by decide),
   by decide,
   claim_C5.2.2.2 SG2.eat_demo ⟨9, 9⟩ [(9, 9)] ⟨9, 9⟩ (by decide) (by decide) (by decide)
     (by decide) (by decide)⟩

namespace SG1

theorem allCells_complete (a b : Nat) (ha : a < 40) (hb : b < 20) :
    is_snake_at allCells ((a : Nat) : Int) ((b : Nat) : Int) = true := by
  rw [is_snake_at_iff, allCells, List.mem_map]
  refine ⟨b * 40 + a, List.mem_range.2 (by omega), ?_⟩
  have h1 : (b * 40 + a) % 40 = a := by omega
  have h2 : (b * 40 + a) / 40 = b := by omega
  rw [h1, h2]

end SG1

/-- C6 (counterexample): with the snake occupying every cell of the board
(a configuration of exactly the capacity `MAX_SNAKE` the claim covers),
`place_orb` returns on NO finite prefix of the random stream — the
rejection loop runs forever; there is no bounded retry count and no
linear-scan fall-back in the code. -/
theorem claim_C6_counterexample :
    SG1.place_orb_diverges SG1.allCells ∧ SG1.allCells.length = SG1.MAX_SNAKE := by
  constructor
  · intro draws
    induction draws with
    | nil => rfl
    | cons d rest ih =>
      have hc := SG1.allCells_complete (d.1 % 40) (d.2 % 20)
        (Nat.mod_lt _ (by omega)) (Nat.mod_lt _ (by omega))
      simp only [SG1.place_orb, hc]
      rw [if_pos trivial]
      exact ih
  · simp [SG1.allCells, SG1.MAX_SNAKE]

/-- C6 (amended): item placement in both files is an unbounded rejection
loop with no retry cap and no linear-scan fall-back: it fails to return on
a finite prefix of the random stream exactly when every draw of the prefix
lands on a snake cell (so with the snake at grid capacity it never
terminates, and termination otherwise depends on the random draws). -/
theorem claim_C6 :
    (∀ (draws : List (Nat × Nat)) (body : List SG1.Point),
      SG1.place_orb draws body = none ↔
        ∀ d ∈ draws,
          SG1.is_snake_at body ((d.1 % 40 : Nat) : Int) ((d.2 % 20 : Nat) : Int) = true) ∧
    (∀ (draws : List (Nat × Nat)) (arr : List SG2.Position) (len : Nat),
      SG2.spawn_food draws arr len = none ↔
        ∀ d ∈ draws,
          (List.range len).any (fun i =>
            (arr.getD i ⟨0, 0⟩).x == ((d.1 % 30 : Nat) : Int) &&
            (arr.getD i ⟨0, 0⟩).y == ((d.2 % 15 : Nat) : Int)) = true) := by
  constructor
  · intro draws body
    induction draws with
    | nil => simp [SG1.place_orb]
    | cons d rest ih =>
      simp only [SG1.place_orb]
      split
      next h =>
        rw [ih]
        constructor
        · intro hall e he
          rcases List.mem_cons.mp he with rfl | he2
          · exact h
          · exact hall e he2
        · intro hall e he
          exact hall e (List.mem_cons_of_mem _ he)
      next h =>
        constructor
        · intro hfalse
          exact absurd hfalse (by simp)
        · intro hall
          exact absurd (hall d (List.mem_cons_self d rest)) h
  · intro draws arr len
    induction draws with
    | nil => simp [SG2.spawn_food]
    | cons d rest ih =>
      simp only [SG2.spawn_food]
      split
      next h =>
        rw [ih]
        constructor
        · intro hall e he
          rcases List.mem_cons.mp he with rfl | he2
          · exact h
          · exact hall e he2
        · intro hall e he
          exact hall e (List.mem_cons_of_mem _ he)
      next h =>
        constructor
        · intro hfalse
          exact absurd hfalse (by simp)
        · intro hall
          exact absurd (hall d (List.mem_cons_self d rest)) h

/-- C7: in the wrap-around variant `snakegamee.c`, a tick whose stepped
head coordinate leaves the board replaces each coordinate by its value
modulo the board dimension (`x % 30`, `y % 15`) and never signals a wall
collision: absent self-collision the running flag is untouched. -/
theorem claim_C7 :
    ∀ (s : SG2.State) (f : SG2.Position),
      s.paused = false →
      1 ≤ s.snake_length →
      s.snake_length ≤ s.arr.length →
      0 ≤ (s.arr.getD 0 ⟨0, 0⟩).x → (s.arr.getD 0 ⟨0, 0⟩).x < 30 →
      0 ≤ (s.arr.getD 0 ⟨0, 0⟩).y → (s.arr.getD 0 ⟨0, 0⟩).y < 15 →
      ((SG2.stepPos s.next_dir (s.arr.getD 0 ⟨0, 0⟩)).x < 0 ∨
       30 ≤ (SG2.stepPos s.next_dir (s.arr.getD 0 ⟨0, 0⟩)).x ∨
       (SG2.stepPos s.next_dir (s.arr.getD 0 ⟨0, 0⟩)).y < 0 ∨
       15 ≤ (SG2.stepPos s.next_dir (s.arr.getD 0 ⟨0, 0⟩)).y) →
      SG2.check_collision (SG2.post_shift s) s.snake_length = false →
      ((SG2.move_snake s f).game_running = s.game_running ∧
       (SG2.live (SG2.move_snake s f)).getD 0 ⟨0, 0⟩ =
         ⟨(SG2.stepPos s.next_dir (s.arr.getD 0 ⟨0, 0⟩)).x % 30,
          (SG2.stepPos s.next_dir (s.arr.getD 0 ⟨0, 0⟩)).y % 15⟩) := by
  intro s f hp h1 h2 hx0 hx1 hy0 hy1 hoor hc
  have hbx : -1 ≤ (SG2.stepPos s.next_dir (s.arr.getD 0 ⟨0, 0⟩)).x ∧
      (SG2.stepPos s.next_dir (s.arr.getD 0 ⟨0, 0⟩)).x ≤ 30 := by
    cases s.next_dir <;> dsimp only [SG2.stepPos] <;> omega
  have hby : -1 ≤ (SG2.stepPos s.next_dir (s.arr.getD 0 ⟨0, 0⟩)).y ∧
      (SG2.stepPos s.next_dir (s.arr.getD 0 ⟨0, 0⟩)).y ≤ 15 := by
    cases s.next_dir <;> dsimp only [SG2.stepPos] <;> omega
  have hw : SG2.new_head s =
      (⟨(SG2.stepPos s.next_dir (s.arr.getD 0 ⟨0, 0⟩)).x % 30,
        (SG2.stepPos s.next_dir (s.arr.getD 0 ⟨0, 0⟩)).y % 15⟩ : SG2.Position) := by
    unfold SG2.new_head SG2.wrapPos
    rw [SG2.wrapCoord_30 _ hbx.1 hbx.2, SG2.wrapCoord_15 _ hby.1 hby.2]
  by_cases he : SG2.eats_food s = true
  · by_cases hlen : s.snake_length < 500
    · rw [SG2.move_snake_eat s f hp hc he hlen]
      refine ⟨rfl, ?_⟩
      show ((SG2.post_shift s).take (s.snake_length + 1)).getD 0 ⟨0, 0⟩ = _
      rw [getD_take_of_lt _ _ _ _ (by omega), SG2.getD_post_shift_zero s _ h1 h2]
      exact hw
    · rw [SG2.move_snake_eat_capped s f hp hc he hlen]
      refine ⟨rfl, ?_⟩
      show ((SG2.post_shift s).take s.snake_length).getD 0 ⟨0, 0⟩ = _
      rw [getD_take_of_lt _ _ _ _ (by omega), SG2.getD_post_shift_zero s _ h1 h2]
      exact hw
  · rw [SG2.move_snake_plain s f hp hc ((Bool.not_eq_true _) ▸ he)]
    refine ⟨rfl, ?_⟩
    show ((SG2.post_shift s).take s.snake_length).getD 0 ⟨0, 0⟩ = _
    rw [getD_take_of_lt _ _ _ _ (by omega), SG2.getD_post_shift_zero s _ h1 h2]
    exact hw

/-- C7 (witness): the spec's wrap scenario — head `(0,5)` heading Left in
`wrap_demo` ends up at `(29,5)` with the game still running. -/
theorem claim_C7_witness :
    (SG2.move_snake SG2.wrap_demo ⟨9, 9⟩).game_running = SG2.wrap_demo.game_running ∧
    (SG2.live (SG2.move_snake SG2.wrap_demo ⟨9, 9⟩)).getD 0 ⟨0, 0⟩ = ⟨29, 5⟩ := by
  have h := claim_C7 SG2.wrap_demo ⟨9, 9⟩ (by decide) (by decide) (by decide) (by decide)
    (by decide) (by decide) (by decide) (by decide) (by decide)
  exact ⟨h.1, h.2.trans (by decide)⟩

namespace SG1

theorem draw_to_buffer_getD (s : State) (x y : Nat) (hx : x < 42) (hy : y < 22) (z : Char) :
    (draw_to_buffer s).getD (y * 43 + x) z = cellChar s x y := by
  have hw43 : ∀ r ∈ (List.range 22).map
      (fun y => (List.range 42).map (fun x => cellChar s x y) ++ ['\n']), r.length = 43 := by
    intro r hr
    rw [List.mem_map] at hr
    obtain ⟨i, _, rfl⟩ := hr
    simp
  have hi : y < ((List.range 22).map
      (fun y => (List.range 42).map (fun x => cellChar s x y) ++ ['\n'])).length := by
    simpa using hy
  rw [draw_to_buffer, getD_flatten_of_width _ 43 hw43 y x hi (by omega) z]
  have hrow : ((List.range 22).map
      (fun y => (List.range 42).map (fun x => cellChar s x y) ++ ['\n'])).getD y [] =
      (List.range 42).map (fun x => cellChar s x y) ++ ['\n'] := by
    rw [List.getD_eq_getElem?_getD, List.getElem?_map, List.getElem?_range hy,
      Option.map_some', Option.getD_some]
  rw [hrow, List.getD_append _ _ _ x (by simpa using hx),
    List.getD_eq_getElem?_getD, List.getElem?_map, List.getElem?_range hx,
    Option.map_some', Option.getD_some]

end SG1

/-- C8 (counterexample): in `snakegamee.c`, when the item's cell coincides
with the head cell (state `overlap_demo`, cell `(15,7)`), the emitted
character is the head `O`, not the item `*` — the precedence is
border > head > body > item > empty, refuting item-over-head. -/
theorem claim_C8_counterexample :
    SG2.overlap_demo.food = SG2.overlap_demo.arr.getD 0 ⟨0, 0⟩ ∧
    (SG2.draw_game SG2.overlap_demo).getD ((7 + 1) * 33 + 1 + 15) ' ' = 'O' ∧
    ('O' : Char) ≠ '*' := by
  decide

/-- C8 (amended): `snakegame.c` renders each buffer cell with the fixed
precedence border > item > head > body > empty — in particular the item
character wins even when the head or a body segment shares the item's cell.
`snakegamee.c` renders interior cells with the precedence
head > body > item > empty instead (the border rows/columns being emitted
separately), so a snake part hides a co-located item. -/
theorem claim_C8 :
    (∀ (s : SG1.State) (x y : Nat), x < 42 → y < 22 →
      ((y = 0 ∨ y = 21 ∨ x = 0 ∨ x = 41) →
        (SG1.draw_to_buffer s).getD (y * 43 + x) ' ' = '#') ∧
      (¬ (y = 0 ∨ y = 21 ∨ x = 0 ∨ x = 41) →
        ((s.orb = ⟨(x : Int) - 1, (y : Int) - 1⟩ →
          (SG1.draw_to_buffer s).getD (y * 43 + x) ' ' = '*') ∧
         (s.orb ≠ ⟨(x : Int) - 1, (y : Int) - 1⟩ →
          s.snake.headD ⟨0, 0⟩ = ⟨(x : Int) - 1, (y : Int) - 1⟩ →
          (SG1.draw_to_buffer s).getD (y * 43 + x) ' ' = 'O') ∧
         (s.orb ≠ ⟨(x : Int) - 1, (y : Int) - 1⟩ →
          s.snake.headD ⟨0, 0⟩ ≠ ⟨(x : Int) - 1, (y : Int) - 1⟩ →
          (⟨(x : Int) - 1, (y : Int) - 1⟩ : SG1.Point) ∈ s.snake.tail →
          (SG1.draw_to_buffer s).getD (y * 43 + x) ' ' = 'o') ∧
         (s.orb ≠ ⟨(x : Int) - 1, (y : Int) - 1⟩ →
          s.snake.headD ⟨0, 0⟩ ≠ ⟨(x : Int) - 1, (y : Int) - 1⟩ →
          (⟨(x : Int) - 1, (y : Int) - 1⟩ : SG1.Point) ∉ s.snake.tail →
          (SG1.draw_to_buffer s).getD (y * 43 + x) ' ' = ' ')))) ∧
    (∀ (arr : List SG2.Position) (len : Nat) (food : SG2.Position) (x y : Int),
      (arr.getD 0 ⟨0, 0⟩ = ⟨x, y⟩ →
        SG2.draw_cell arr len food x y = 'O') ∧
      (arr.getD 0 ⟨0, 0⟩ ≠ ⟨x, y⟩ →
        (List.range (len - 1)).any (fun i =>
          (arr.getD (i + 1) ⟨0, 0⟩).x == x && (arr.getD (i + 1) ⟨0, 0⟩).y == y) = true →
        SG2.draw_cell arr len food x y = 'o') ∧
      (arr.getD 0 ⟨0, 0⟩ ≠ ⟨x, y⟩ →
        (List.range (len - 1)).any (fun i =>
          (arr.getD (i + 1) ⟨0, 0⟩).x == x && (arr.getD (i + 1) ⟨0, 0⟩).y == y) = false →
        food = ⟨x, y⟩ →
        SG2.draw_cell arr len food x y = '*') ∧
      (arr.getD 0 ⟨0, 0⟩ ≠ ⟨x, y⟩ →
        (List.range (len - 1)).any (fun i =>
          (arr.getD (i + 1) ⟨0, 0⟩).x == x && (arr.getD (i + 1) ⟨0, 0⟩).y == y) = false →
        food ≠ ⟨x, y⟩ →
        SG2.draw_cell arr len food x y = ' ')) := by
  constructor
  · intro s x y hx hy
    rw [SG1.draw_to_buffer_getD s x y hx hy]
    constructor
    · intro hb
      unfold SG1.cellChar
      split_ifs <;> first | rfl | tauto
    · intro hni
      have hy2 : ¬ (y = 0 ∨ y = 21) := by tauto
      have hx2 : ¬ (x = 0 ∨ x = 41) := by tauto
      refine ⟨?_, ?_, ?_, ?_⟩
      · intro horb
        unfold SG1.cellChar
        rw [if_neg hy2, if_neg hx2, if_pos ((SG1.beq_pair_iff _ _ _).2 horb)]
      · intro horb hhead
        unfold SG1.cellChar
        rw [if_neg hy2, if_neg hx2,
          if_neg (fun h => horb ((SG1.beq_pair_iff _ _ _).1 h)),
          if_pos ((SG1.beq_pair_iff _ _ _).2 hhead)]
      · intro horb hhead hmem
        unfold SG1.cellChar
        rw [if_neg hy2, if_neg hx2,
          if_neg (fun h => horb ((SG1.beq_pair_iff _ _ _).1 h)),
          if_neg (fun h => hhead ((SG1.beq_pair_iff _ _ _).1 h)),
          if_pos ((SG1.any_beq_pair_iff _ _ _).2 hmem)]
      · intro horb hhead hmem
        unfold SG1.cellChar
        rw [if_neg hy2, if_neg hx2,
          if_neg (fun h => horb ((SG1.beq_pair_iff _ _ _).1 h)),
          if_neg (fun h => hhead ((SG1.beq_pair_iff _ _ _).1 h)),
          if_neg (fun h => hmem ((SG1.any_beq_pair_iff _ _ _).1 h))]
  · intro arr len food x y
    refine ⟨?_, ?_, ?_, ?_⟩
    · intro hhead
      unfold SG2.draw_cell
      rw [if_pos ((SG2.beq_pair_iff_pos _ _ _).2 hhead)]
    · intro hhead hbody
      unfold SG2.draw_cell
      rw [if_neg (fun h => hhead ((SG2.beq_pair_iff_pos _ _ _).1 h)), if_pos hbody]
    · intro hhead hbody hfood
      unfold SG2.draw_cell
      rw [if_neg (fun h => hhead ((SG2.beq_pair_iff_pos _ _ _).1 h)), if_neg (Eq.mpr (Bool.not_eq_true _) hbody),
        if_pos ((SG2.beq_pair_iff_pos _ _ _).2 hfood)]
    · intro hhead hbody hfood
      unfold SG2.draw_cell
      rw [if_neg (fun h => hhead ((SG2.beq_pair_iff_pos _ _ _).1 h)), if_neg (Eq.mpr (Bool.not_eq_true _) hbody),
        if_neg (fun h => hfood ((SG2.beq_pair_iff_pos _ _ _).1 h))]

/-- C8 (witness): the amended precedence applied concretely — in
`snakegame.c`'s `eat_demo` the orb cell `(6,5)` (buffer offset for frame
cell `(7,6)`) shows `*`, and in `snakegamee.c`'s `overlap_demo` the shared
head/item cell `(15,7)` shows `O`. -/
theorem claim_C8_witness :
    (SG1.draw_to_buffer SG1.eat_demo).getD (6 * 43 + 7) ' ' = '*' ∧
    SG2.draw_cell SG2.overlap_demo.arr SG2.overlap_demo.snake_length
      SG2.overlap_demo.food 15 7 = 'O' :=
  ⟨((claim_C8.1 SG1.eat_demo 7 6 (by decide) (by decide)).2 (by decide)).1 (by decide),
   (claim_C8.2 SG2.overlap_demo.arr SG2.overlap_demo.snake_length
     SG2.overlap_demo.food 15 7).1 (by decide)⟩

/-- C9 (counterexample): `snakegamee.c` emits
`Score: 0 | Length: 3 | ESC=Quit SPACE=Pause` for its initial state
(score 0, length 3, tick interval 100 ms) — pipe separators and no Speed
field — which differs from the claimed
`Score: <int>    Length: <int>    Speed(ms/frame): <int>` format. -/
theorem claim_C9_counterexample :
    SG2.status_line 0 3 false = "Score: 0 | Length: 3 | ESC=Quit SPACE=Pause".toList ∧
    spec_status_line 0 3 100 = "Score: 0    Length: 3    Speed(ms/frame): 100".toList ∧
    SG2.status_line 0 3 false ≠ spec_status_line 0 3 100 := by
  decide

/-- C9 (amended): `snakegame.c`'s HUD is exactly the spec's status line
`Score: <int>    Length: <int>    Speed(ms/frame): <int>` (four spaces
between fields, the three integers being score, snake length and tick
interval) followed by the controls line; `snakegamee.c` instead emits
`Score: <int> | Length: <int> | ESC=Quit SPACE=Pause` with no Speed field. -/
theorem claim_C9 :
    (∀ score len speed : Int,
      SG1.hud score len speed =
        spec_status_line score len speed ++
        "\nControls: Arrow keys or WASD. Press \x27q\x27 to quit.\n".toList) ∧
    (∀ (score : Int) (len : Nat),
      SG2.status_line score len false =
        "Score: ".toList ++ int_to_dec score ++ " | Length: ".toList ++
        int_to_dec (len : Int) ++ " | ESC=Quit SPACE=Pause".toList) := by
  constructor
  · intro score len speed
    simp [SG1.hud, spec_status_line, List.append_assoc]
  · intro score len
    simp [SG2.status_line, List.append_assoc]

/-- C10: when `update_logic` runs with `snake_len < MAX_SNAKE`
(`MAX_SNAKE = WIDTH * HEIGHT = 800`), every index it reads or writes in the
`snake` array — the collision scan, the shift loop (whose first write is
index `snake_len`, one past the live body) and the head accesses — lies in
`[0, MAX_SNAKE)`; and the precondition is necessary: at
`snake_len = MAX_SNAKE` the shift's first write is index `MAX_SNAKE`
itself, which is not `< MAX_SNAKE`. -/
theorem claim_C10 (len : Nat) (h : len < SG1.MAX_SNAKE) :
    (∀ j ∈ SG1.update_writes len, j < SG1.MAX_SNAKE) ∧
    (∀ j ∈ SG1.update_reads len, j < SG1.MAX_SNAKE) ∧
    (SG1.shift_writes SG1.MAX_SNAKE).headD 0 = SG1.MAX_SNAKE ∧
    ¬ (SG1.shift_writes SG1.MAX_SNAKE).headD 0 < SG1.MAX_SNAKE ∧
    (SG1.MAX_SNAKE : Int) = SG1.WIDTH * SG1.HEIGHT := by
  refine ⟨?_, ?_, rfl, by decide, by decide⟩
  · intro j hj
    rw [SG1.update_writes, List.mem_append] at hj
    rcases hj with hj | hj
    · have := SG1.shift_writes_mem len j hj
      rw [SG1.MAX_SNAKE] at h ⊢
      omega
    · simp only [List.mem_singleton] at hj
      rw [SG1.MAX_SNAKE]
      omega
  · intro j hj
    simp only [SG1.update_reads, List.mem_append] at hj
    rcases hj with (hj | hj) | hj
    · rw [List.mem_range] at hj
      rw [SG1.MAX_SNAKE] at h ⊢
      omega
    · have := SG1.shift_reads_mem len j hj
      rw [SG1.MAX_SNAKE] at h ⊢
      omega
    · simp only [List.mem_singleton] at hj
      rw [SG1.MAX_SNAKE]
      omega

/-- C10 (witness): the bound applied at the initial length 4 — the shift's
largest write index 4 is within the array. -/
theorem claim_C10_witness :
    (4 : Nat) < SG1.MAX_SNAKE ∧ 4 ∈ SG1.update_writes 4 ∧ 4 < SG1.MAX_SNAKE :=
  ⟨by decide, by decide, (claim_C10 4 (by decide)).1 4 (by decide)⟩

/-- C6 (witness): the amended characterisation applied to a concrete
occupied-draw stream — two draws landing on the single snake cell leave the
loop still running. -/
theorem claim_C6_witness :
    SG1.place_orb [(5, 5), (5, 5)] [⟨5, 5⟩] = none :=
  (claim_C6.1 [(5, 5), (5, 5)] [⟨5, 5⟩]).2 (by decide)
